import Mathlib

/-!
Verification of the mev-bot repository's decoder / opportunity-detection
pipeline against its natural-language specification.

The TypeScript sources are shallowly embedded: JS `bigint` values become
`Nat` (JS bigints are arbitrary-precision; the on-chain quantities are
uint256), JS `number` values that carry prices/impacts become `ℚ`,
`undefined`-able fields become `Option`, and fallible operations return
`Option`/`Except`.  Decimal strings produced by `BigInt.toString` /
parsed by `BigInt(...)` are modelled by `natToString` / `jsBigIntOfString`
below.
-/

namespace MevBot

/-- The character for a single decimal digit, as produced by JS
`BigInt.prototype.toString`. -/
def digitChar (d : Nat) : Char := Char.ofNat (48 + d)

/-- Numeric value of a decimal digit character (`'0'` ↦ 0, …). -/
def charDigitVal (c : Char) : Nat := c.toNat - 48

/-- Whether a character is an ASCII decimal digit. -/
def isDigitChar (c : Char) : Bool := 48 ≤ c.toNat && c.toNat ≤ 57

/-- Model of JS `BigInt.prototype.toString()` (base 10): most-significant
digit first, `"0"` for zero. -/
def natToString (n : Nat) : String :=
  if n = 0 then "0" else String.mk ((Nat.digits 10 n).reverse.map digitChar)

/-- Model of the JS `BigInt(string)` constructor on decimal strings: if every
character is a decimal digit the decimal value is returned (the empty string
gives `0n` in JS, matching the fold over no digits); any other character makes
the constructor throw, modelled as `none`. -/
def jsBigIntOfString (s : String) : Option Nat :=
  if s.data.all isDigitChar then
    some (s.data.foldl (fun a c => a * 10 + charDigitVal c) 0)
  else
    none

/-- Model of JS `String.prototype.toLowerCase()` on the ASCII strings
(addresses, hex) this codebase handles: lowercase each character. -/
def toLowerStr (s : String) : String := String.mk (s.data.map Char.toLower)

/-- `normalizeAddress` from `src/utils/constants.ts`:
`if (!address) return address; return address.toLowerCase();`
(the only falsy string is the empty string). -/
def normalizeAddress (address : String) : String :=
  if address = "" then address else toLowerStr address

/-- The `routerType` union type `'v2' | 'v3'` of `DecodedTransaction`
(`src/decoder/interfaces.ts`). -/
inductive RouterType where
  | v2
  | v3
deriving DecidableEq, Repr

/-- `DecodedTransaction` from `src/decoder/interfaces.ts`.  `amountIn` is the
interface's `bigint`; fields that some decoder leaves `undefined` at runtime
(`tokenIn`/`tokenOut` on an empty path, `deadline`, `fee`, `recipient` and
`amountOutMin` on universal-router commands) are `Option`s. -/
structure DecodedTransaction where
  router : String
  method : String
  tokenIn : Option String
  tokenOut : Option String
  amountIn : Nat
  amountOut : String
  deadline : Option String
  fee : Option String
  recipient : Option String
  amountOutMin : Option String
  payerIsUser : Bool
  amountInMax : String
  routerType : RouterType
deriving DecidableEq, Repr

/-- The JSON-serializable form of a `DecodedTransaction` put on the Kafka bus:
`amountIn` is stringified, every other field is carried verbatim through
`JSON.stringify`/`JSON.parse` (which is the identity on these string/bool
fields, with absent `Option` fields dropped and rehydrated as `undefined`). -/
structure SerializedDecodedTx where
  router : String
  method : String
  tokenIn : Option String
  tokenOut : Option String
  amountIn : String
  amountOut : String
  deadline : Option String
  fee : Option String
  recipient : Option String
  amountOutMin : Option String
  payerIsUser : Bool
  amountInMax : String
  routerType : RouterType
deriving DecidableEq, Repr

/-- `serializeDecodedTx` from `src/core/mempool.ts` (the identical helper also
appears in the Kafka consumer): copies each field and converts `amountIn` with
`tx.amountIn.toString()`. -/
def serializeDecodedTx (tx : DecodedTransaction) : SerializedDecodedTx :=
  { router := tx.router
    method := tx.method
    tokenIn := tx.tokenIn
    tokenOut := tx.tokenOut
    amountIn := natToString tx.amountIn
    amountOut := tx.amountOut
    deadline := tx.deadline
    fee := tx.fee
    recipient := tx.recipient
    amountOutMin := tx.amountOutMin
    payerIsUser := tx.payerIsUser
    amountInMax := tx.amountInMax
    routerType := tx.routerType }

/-- The consumer's rehydration in `processTransactionMessages`
(`kafkaConsumer.ts`): `{ ...decodedTx, amountIn: BigInt(decodedTx.amountIn) }`;
`BigInt(...)` throws on a malformed string, modelled as `none`. -/
def deserializeDecodedTx (s : SerializedDecodedTx) : Option DecodedTransaction :=
  (jsBigIntOfString s.amountIn).map fun n =>
    { router := s.router
      method := s.method
      tokenIn := s.tokenIn
      tokenOut := s.tokenOut
      amountIn := n
      amountOut := s.amountOut
      deadline := s.deadline
      fee := s.fee
      recipient := s.recipient
      amountOutMin := s.amountOutMin
      payerIsUser := s.payerIsUser
      amountInMax := s.amountInMax
      routerType := s.routerType }

/-- The zero address used as a fallback by the V2 router decoder. -/
def zeroAddress : String := "0x0000000000000000000000000000000000000000"

/-- JS `x || dflt` on an optional string (`undefined` and `""` are falsy). -/
def jsOrDefaultStr (x : Option String) (dflt : String) : String :=
  match x with
  | some s => if s = "" then dflt else s
  | none => dflt

/-- A V2 router transaction as parsed by the ethers ABI `Interface`
(`routerInterface.parseTransaction`): the method name together with its
decoded arguments.  `other` covers methods outside the decoder's `switch`. -/
inductive V2RouterCall where
  | swapExactTokensForTokens
      (amountIn amountOutMin : Nat) (path : List String) (toAddr : String)
      (deadline : Nat) (supportingFee : Bool)
  | swapTokensForExactTokens
      (amountOut amountInMax : Nat) (path : List String) (toAddr : String)
      (deadline : Nat)
  | swapExactETHForTokens
      (amountOutMin : Nat) (path : List String) (toAddr : String) (deadline : Nat)
      (supportingFee : Bool)
  | swapExactTokensForETH
      (amountIn amountOutMin : Nat) (path : List String) (toAddr : String)
      (deadline : Nat) (supportingFee : Bool)
  | swapETHForExactTokens
      (amountOut : Nat) (path : List String) (toAddr : String) (deadline : Nat)
  | swapTokensForExactETH
      (amountOut amountInMax : Nat) (path : List String) (toAddr : String)
      (deadline : Nat)
  | other
deriving DecidableEq, Repr

/-- The method-name string the decoder emits for a V2 call (the
`SupportingFeeOnTransferTokens` variants share their case bodies, so the flag
only changes the reported name). -/
def v2MethodName : V2RouterCall → String
  | .swapExactTokensForTokens _ _ _ _ _ fee =>
      if fee then "swapExactTokensForTokensSupportingFeeOnTransferTokens"
      else "swapExactTokensForTokens"
  | .swapTokensForExactTokens _ _ _ _ _ => "swapTokensForExactTokens"
  | .swapExactETHForTokens _ _ _ _ fee =>
      if fee then "swapExactETHForTokensSupportingFeeOnTransferTokens"
      else "swapExactETHForTokens"
  | .swapExactTokensForETH _ _ _ _ _ fee =>
      if fee then "swapExactTokensForETHSupportingFeeOnTransferTokens"
      else "swapExactTokensForETH"
  | .swapETHForExactTokens _ _ _ _ => "swapETHForExactTokens"
  | .swapTokensForExactETH _ _ _ _ _ => "swapTokensForExactETH"
  | .other => "UNKNOWN"

/-- `decodeV2RouterTx` from `src/decoder/v2RouterDecoder.ts`.  `txTo` models
`tx.to` and `txValue` models `tx.value` (the ETH sent along).  Addresses are
emitted exactly as ABI-decoded — this decoder never lowercases. -/
def decodeV2RouterTx (txTo : Option String) (txValue : Option Nat)
    (call : V2RouterCall) : Option DecodedTransaction :=
  match call with
  | .swapExactTokensForTokens amountIn amountOutMin path toAddr deadline _ =>
      some
        { router := txTo.getD ""
          method := v2MethodName call
          tokenIn := path.get? 0
          tokenOut := path.get? (path.length - 1)
          amountIn := amountIn
          amountOut := natToString amountOutMin
          deadline := some (natToString deadline)
          fee := some "0"
          recipient := some toAddr
          amountOutMin := some (natToString amountOutMin)
          payerIsUser := true
          amountInMax := "0"
          routerType := .v2 }
  | .swapTokensForExactTokens amountOut amountInMax path toAddr deadline =>
      some
        { router := txTo.getD ""
          method := v2MethodName call
          tokenIn := path.get? 0
          tokenOut := path.get? (path.length - 1)
          amountIn := 0
          amountOut := natToString amountOut
          deadline := some (natToString deadline)
          fee := some "0"
          recipient := some toAddr
          amountOutMin := some "0"
          payerIsUser := true
          amountInMax := natToString amountInMax
          routerType := .v2 }
  | .swapExactETHForTokens amountOutMin path toAddr deadline _ =>
      some
        { router := txTo.getD ""
          method := v2MethodName call
          tokenIn := some (jsOrDefaultStr (path.get? 0) zeroAddress)
          tokenOut := path.get? (path.length - 1)
          amountIn := txValue.getD 0
          amountOut := natToString amountOutMin
          deadline := some (natToString deadline)
          fee := some "0"
          recipient := some toAddr
          amountOutMin := some (natToString amountOutMin)
          payerIsUser := true
          amountInMax := "0"
          routerType := .v2 }
  | .swapExactTokensForETH amountIn amountOutMin path toAddr deadline _ =>
      some
        { router := txTo.getD ""
          method := v2MethodName call
          tokenIn := path.get? 0
          tokenOut :=
            some (jsOrDefaultStr (path.get? (path.length - 1)) zeroAddress)
          amountIn := amountIn
          amountOut := natToString amountOutMin
          deadline := some (natToString deadline)
          fee := some "0"
          recipient := some toAddr
          amountOutMin := some (natToString amountOutMin)
          payerIsUser := true
          amountInMax := "0"
          routerType := .v2 }
  | .swapETHForExactTokens amountOut path toAddr deadline =>
      some
        { router := txTo.getD ""
          method := v2MethodName call
          tokenIn := some (jsOrDefaultStr (path.get? 0) zeroAddress)
          tokenOut := path.get? (path.length - 1)
          amountIn := txValue.getD 0
          amountOut := natToString amountOut
          deadline := some (natToString deadline)
          fee := some "0"
          recipient := some toAddr
          amountOutMin := some "0"
          payerIsUser := true
          amountInMax := "0"
          routerType := .v2 }
  | .swapTokensForExactETH amountOut amountInMax path toAddr deadline =>
      some
        { router := txTo.getD ""
          method := v2MethodName call
          tokenIn := path.get? 0
          tokenOut :=
            some (jsOrDefaultStr (path.get? (path.length - 1)) zeroAddress)
          amountIn := amountInMax
          amountOut := natToString amountOut
          deadline := some (natToString deadline)
          fee := some "0"
          recipient := some toAddr
          amountOutMin := some "0"
          payerIsUser := true
          amountInMax := natToString amountInMax
          routerType := .v2 }
  | .other => none

/-- Result of `decodeV3Path` in `src/decoder/v3RouterDecoder.ts`. -/
structure V3DecodedPath where
  tokenIn : Option String
  tokenOut : Option String
  tokens : List String
  fees : Nat
deriving DecidableEq, Repr

/-- `decodeV3Path` from `src/decoder/v3RouterDecoder.ts`.  The packed
`(token, fee, token, …)` byte string is modelled by the list of address
strings ethers' `getAddress(hexlify(...))` renders from its 20-byte slices
(`rawTokens`) together with the last 3-byte fee (`lastFee`).  Each pushed
token goes through `normalizeAddress`, and `tokenIn`/`tokenOut` are
`normalizeAddress` of the first/last pushed token (`undefined` on an empty
path is passed through by `normalizeAddress`'s falsy-guard, hence
`Option.map`). -/
def decodeV3Path (rawTokens : List String) (lastFee : Nat) : V3DecodedPath :=
  let tokens := rawTokens.map normalizeAddress
  { tokenIn := (tokens.get? 0).map normalizeAddress
    tokenOut := (tokens.get? (tokens.length - 1)).map normalizeAddress
    tokens := tokens
    fees := lastFee }

/-- A V3 router transaction as parsed by the ABI `Interface`: method name plus
decoded struct arguments.  For the path-based methods the packed path is
modelled as in `decodeV3Path`. -/
inductive V3RouterCall where
  | exactInputSingle
      (tokenIn tokenOut : String) (fee : Nat) (recipient : String)
      (deadline : Nat) (amountIn amountOutMinimum : Nat)
  | exactOutputSingle
      (tokenIn tokenOut : String) (fee : Nat) (recipient : String)
      (deadline : Nat) (amountOut amountInMaximum : Nat)
  | exactInput
      (rawTokens : List String) (lastFee : Nat) (recipient : String)
      (deadline : Nat) (amountIn amountOutMinimum : Nat)
  | exactOutput
      (rawTokens : List String) (lastFee : Nat) (recipient : String)
      (deadline : Nat) (amountOut amountInMaximum : Nat)
  | other
deriving DecidableEq, Repr

/-- `decodeV3RouterTx` from `src/decoder/v3RouterDecoder.ts`. -/
def decodeV3RouterTx (txTo : Option String) (call : V3RouterCall) :
    Option DecodedTransaction :=
  match call with
  | .exactInputSingle tokenIn tokenOut fee recipient deadline amountIn
      amountOutMinimum =>
      some
        { router := txTo.getD ""
          method := "exactInputSingle"
          tokenIn := some (normalizeAddress tokenIn)
          tokenOut := some (normalizeAddress tokenOut)
          amountIn := amountIn
          amountOut := natToString amountOutMinimum
          deadline := some (natToString deadline)
          fee := some (natToString fee)
          recipient := some (normalizeAddress recipient)
          amountOutMin := some (natToString amountOutMinimum)
          payerIsUser := true
          amountInMax := "0"
          routerType := .v3 }
  | .exactOutputSingle tokenIn tokenOut fee recipient deadline amountOut
      amountInMaximum =>
      some
        { router := txTo.getD ""
          method := "exactOutputSingle"
          tokenIn := some (normalizeAddress tokenIn)
          tokenOut := some (normalizeAddress tokenOut)
          amountIn := amountInMaximum
          amountOut := natToString amountOut
          deadline := some (natToString deadline)
          fee := some (natToString fee)
          recipient := some (normalizeAddress recipient)
          amountOutMin := some (natToString amountInMaximum)
          payerIsUser := true
          amountInMax := "0"
          routerType := .v3 }
  | .exactInput rawTokens lastFee recipient deadline amountIn
      amountOutMinimum =>
      let decodedPath := decodeV3Path rawTokens lastFee
      some
        { router := txTo.getD ""
          method := "exactInput"
          tokenIn := decodedPath.tokenIn.map normalizeAddress
          tokenOut := decodedPath.tokenOut.map normalizeAddress
          amountIn := amountIn
          amountOut := "0"
          deadline := some (natToString deadline)
          fee := some (natToString decodedPath.fees)
          recipient := some (normalizeAddress recipient)
          amountOutMin := some (natToString amountOutMinimum)
          payerIsUser := true
          amountInMax := "0"
          routerType := .v3 }
  | .exactOutput rawTokens lastFee recipient deadline amountOut
      amountInMaximum =>
      let decodedPath := decodeV3Path rawTokens lastFee
      some
        { router := txTo.getD ""
          method := "exactOutput"
          tokenIn := decodedPath.tokenIn.map normalizeAddress
          tokenOut := decodedPath.tokenOut.map normalizeAddress
          amountIn := amountInMaximum
          amountOut := natToString amountOut
          deadline := some (natToString deadline)
          fee := some (natToString decodedPath.fees)
          recipient := some (normalizeAddress recipient)
          amountOutMin := some (natToString amountOut)
          payerIsUser := true
          amountInMax := natToString amountInMaximum
          routerType := .v3 }
  | .other => none

/-- A universal-router command byte together with its ABI-decoded input, as
classified by `CMD_TYPE` in `src/decoder/universalRouterDecoder.ts`
(`0x00`/`0x01` → V3 exact in/out, `0x08`/`0x09` → V2 exact in/out, everything
else `UNKNOWN`).  The V3 packed path is modelled as in `decodeV3Path` of the
universal decoder (which does not checksum or lowercase: it slices the hex
string, so tokens appear exactly as sliced); the V2 path is the decoded
`address[]`. -/
inductive URCommand where
  | v3ExactIn
      (recipient : String) (amountIn amountOutMin : Nat)
      (pathTokens : List String) (lastFee : Nat) (payerIsUser : Bool)
  | v3ExactOut
      (recipient : String) (amountOut amountInMax : Nat)
      (pathTokens : List String) (lastFee : Nat) (payerIsUser : Bool)
  | v2ExactIn
      (recipient : String) (amountIn amountOutMin : Nat)
      (path : List String) (payerIsUser : Bool)
  | v2ExactOut
      (recipient : String) (amountOut amountInMax : Nat)
      (path : List String) (payerIsUser : Bool)
  | unknown
deriving DecidableEq, Repr

/-- `decodeV2Path` from `src/decoder/universalRouterDecoder.ts`:
`{ tokenIn: pathBytes[0], tokenOut: pathBytes[1] }` — note index `1`, not the
last element. -/
def urDecodeV2Path (pathBytes : List String) :
    Option String × Option String :=
  (pathBytes.get? 0, pathBytes.get? 1)

/-- The action `decodeUniversalRouterFull` pushes for one decoded command
(`actions.push({...})` in `src/decoder/universalRouterDecoder.ts`); `none` for
an `UNKNOWN` command, which the loop `continue`s over.  Field defaults mirror
the JS `??`/optional-chaining behaviour: the V2 decode helpers return no
`fees` key (so `fee` is `undefined`) and no `amountOutMinimum` key; the V3
exact-out helper returns no `amountIn` and no `amountInMax` key. -/
def urActionOf (txTo : Option String) (deadline : Option Nat)
    (cmd : URCommand) : Option DecodedTransaction :=
  match cmd with
  | .v3ExactIn recipient amountIn amountOutMin pathTokens lastFee
      payerIsUser =>
      some
        { router := txTo.getD ""
          method := "V3_EXACT_IN"
          tokenIn := some (jsOrDefaultStr (pathTokens.get? 0) "")
          tokenOut :=
            some (jsOrDefaultStr (pathTokens.get? (pathTokens.length - 1)) "")
          amountIn := amountIn
          amountOut := "0"
          deadline := deadline.map natToString
          fee := some (natToString lastFee)
          recipient := some recipient
          amountOutMin := some (natToString amountOutMin)
          payerIsUser := payerIsUser
          amountInMax := "0"
          routerType := .v3 }
  | .v3ExactOut recipient amountOut _amountInMax pathTokens lastFee
      payerIsUser =>
      some
        { router := txTo.getD ""
          method := "V3_EXACT_OUT"
          tokenIn := some (jsOrDefaultStr (pathTokens.get? 0) "")
          tokenOut :=
            some (jsOrDefaultStr (pathTokens.get? (pathTokens.length - 1)) "")
          amountIn := 0
          amountOut := natToString amountOut
          deadline := deadline.map natToString
          fee := some (natToString lastFee)
          recipient := some recipient
          amountOutMin := none
          payerIsUser := payerIsUser
          amountInMax := "0"
          routerType := .v3 }
  | .v2ExactIn recipient amountIn _amountOutMin path payerIsUser =>
      some
        { router := txTo.getD ""
          method := "V2_EXACT_IN"
          tokenIn := (urDecodeV2Path path).1
          tokenOut := (urDecodeV2Path path).2
          amountIn := amountIn
          amountOut := "0"
          deadline := deadline.map natToString
          fee := none
          recipient := some recipient
          amountOutMin := none
          payerIsUser := payerIsUser
          amountInMax := "0"
          routerType := .v2 }
  | .v2ExactOut recipient amountOut amountInMax path payerIsUser =>
      some
        { router := txTo.getD ""
          method := "V2_EXACT_OUT"
          tokenIn := (urDecodeV2Path path).1
          tokenOut := (urDecodeV2Path path).2
          amountIn := amountOut
          amountOut := "0"
          deadline := deadline.map natToString
          fee := none
          recipient := some recipient
          amountOutMin := none
          payerIsUser := payerIsUser
          amountInMax := natToString amountInMax
          routerType := .v2 }
  | .unknown => none

/-- `decodeUniversalRouterFull` from `src/decoder/universalRouterDecoder.ts`:
iterates the command bytes, decoding each recognised command into a
`DecodedTransaction` and skipping unknown ones. -/
def decodeUniversalRouterFull (txTo : Option String) (deadline : Option Nat)
    (cmds : List URCommand) : List DecodedTransaction :=
  cmds.foldr
    (fun cmd acc =>
      match urActionOf txTo deadline cmd with
      | some act => act :: acc
      | none => acc)
    []

/-- Result record of `getV2PriceImpact`. -/
structure V2PriceImpactResult where
  priceImpactPercent : ℚ
  amountOut : Nat
  reserveIn : Nat
  reserveOut : Nat
deriving DecidableEq, Repr

/-- `getV2PriceImpact` from `getV2PriceImpact.ts`.  The pool state fetched
over RPC (`getReserves`, `token0`) enters as arguments.  The bigint part
(`amountInWithFee`, `numerator`, `denominator`, `amountOut`) is exact `Nat`
division as in the source; the JS float part (`parseFloat(formatUnits(...))`,
the before/after prices and the impact) is modelled in exact `ℚ` arithmetic —
`formatUnits v d` denotes `v / 10^d` — which agrees with IEEE doubles well
within the tolerances the claims use. -/
def getV2PriceImpact (token0 : String) (reserve0 reserve1 : Nat)
    (tokenIn : String) (amountIn : Nat) (decimalsIn decimalsOut : Nat) :
    V2PriceImpactResult :=
  let isToken0In := toLowerStr tokenIn = toLowerStr token0
  let reserveIn := if isToken0In then reserve0 else reserve1
  let reserveOut := if isToken0In then reserve1 else reserve0
  let amountInWithFee := amountIn * 997 / 1000
  let numerator := amountInWithFee * reserveOut
  let denominator := reserveIn * 1000 + amountInWithFee
  let amountOut := numerator / denominator
  let rIn : ℚ := (reserveIn : ℚ) / 10 ^ decimalsIn
  let rOut : ℚ := (reserveOut : ℚ) / 10 ^ decimalsOut
  let aIn : ℚ := (amountIn : ℚ) / 10 ^ decimalsIn
  let aOut : ℚ := (amountOut : ℚ) / 10 ^ decimalsOut
  let priceBefore := rOut / rIn
  let priceAfter := (rOut - aOut) / (rIn + aIn)
  let impact := |priceBefore - priceAfter| / priceBefore
  { priceImpactPercent := impact * 100
    amountOut := amountOut
    reserveIn := reserveIn
    reserveOut := reserveOut }

/-- Modelled from the spec's words (for comparison with the code's
arithmetic): "apply the canonical constant-product with 0.3 % swap fee:
`amountInWithFee = amountIn·997/1000`;
`amountOut = (amountInWithFee · reserveOut) / (reserveIn·1000 + amountInWithFee)`",
with every division the floor division of integer arithmetic. -/
def v2SpecAmountOut (amountIn reserveIn reserveOut : Nat) : Nat :=
  let amountInWithFee := amountIn * 997 / 1000
  (amountInWithFee * reserveOut) / (reserveIn * 1000 + amountInWithFee)

/-- `OpportunityResult` from `opportunityDetector.ts`.  `profitPotential` is
the `formatUnits(profit, tokenOutDecimals)` string, modelled by the rational
it denotes (`profit / 10^decimals`); `priceImpact` is the JS number, modelled
as `ℚ`.  Fields not set on a given return path are `Option`s (JS
`undefined`), and `isExpired` defaults to `false` exactly where the source
initialises `let isExpired = false`. -/
structure OpportunityResult where
  isOpportunity : Bool
  profitPotential : Option ℚ := none
  priceImpact : Option ℚ := none
  poolAddress : Option String := none
  tokenInDecimals : Option Nat := none
  tokenOutDecimals : Option Nat := none
  reason : Option String := none
  timeToSubmitSeconds : Option Nat := none
  deadlineTimestamp : Option Nat := none
  isExpired : Bool := false
deriving DecidableEq, Repr

/-- The detector's effective input amount: `decodedTx.amountIn`, falling back
to `decodedTx.amountInMax` when `amountIn` is zero and `amountInMax` parses
positive (`amountInToCheck` in `detectOpportunity`). -/
def effectiveAmountIn (amountIn amountInMax : Nat) : Nat :=
  if amountIn = 0 && amountInMax > 0 then amountInMax else amountIn

/-- The two early-return reasons of the V2 liquidity check in
`detectOpportunity` (the source interpolates the amounts into the message;
only the fixed prefix is kept). -/
inductive LiquidityReject where
  | insufficientLiquidity  -- "Insufficient liquidity: trade > 50% of reserve"
  | lowLiquidity           -- "Low liquidity: reserve < 10x trade"
deriving DecidableEq, Repr

/-- The V2 liquidity admissibility gate of `detectOpportunity`:
reject when the trade exceeds `reserveIn * 50 / 100` (50 % of the tokenIn-side
reserve, strict `>`), then when `reserveIn < 10 * amountInToCheck`. -/
def v2LiquidityGate (amountInToCheck reserveIn : Nat) : Option LiquidityReject :=
  let maxTradeSize := reserveIn * 50 / 100
  if amountInToCheck > maxTradeSize then some .insufficientLiquidity
  else if reserveIn < amountInToCheck * 10 then some .lowLiquidity
  else none

/-- The early-return `OpportunityResult` produced when the V2 liquidity gate
rejects (`isOpportunity: false` plus the reason and pool context). -/
def v2LiquidityRejectResult (r : LiquidityReject) (poolAddress : String)
    (tokenInDecimals tokenOutDecimals : Nat) : OpportunityResult :=
  { isOpportunity := false
    reason := some (match r with
      | .insufficientLiquidity => "Insufficient liquidity: trade > 50% of reserve"
      | .lowLiquidity => "Low liquidity: reserve < 10x trade")
    poolAddress := some poolAddress
    tokenInDecimals := some tokenInDecimals
    tokenOutDecimals := some tokenOutDecimals }

/-- The V2 branch of `detectOpportunity` around the liquidity check: when the
effective input amount is positive the gate runs, and a rejection returns
immediately — the impact/profit evaluation (abstracted as `verdict`, applied
to the effective amount) is reached only when the gate passes or the amount
is zero. -/
def detectV2Gated (amountIn amountInMax reserveIn : Nat)
    (poolAddress : String) (tokenInDecimals tokenOutDecimals : Nat)
    (verdict : Nat → OpportunityResult) : OpportunityResult :=
  let amountInToCheck := effectiveAmountIn amountIn amountInMax
  if 0 < amountInToCheck then
    match v2LiquidityGate amountInToCheck reserveIn with
    | some r =>
        v2LiquidityRejectResult r poolAddress tokenInDecimals tokenOutDecimals
    | none => verdict amountInToCheck
  else verdict amountInToCheck

/-- The profit-potential computation of `detectOpportunity`:
given `calculatedAmountOut` and a valid `amountOutMin` (present, non-empty,
not `'0'`, numeric — modelled as `some m` with `m ≠ 0`), the profit is
`expectedOut - minOut` when positive, `0` when they are equal, and `undefined`
when negative or when either side is missing. -/
def computeProfitPotential (calculatedAmountOut : Option Nat)
    (amountOutMin : Option Nat) : Option Int :=
  match calculatedAmountOut, amountOutMin with
  | some expectedOut, some minOut =>
      if minOut = 0 then none
      else if expectedOut > minOut then some ((expectedOut : Int) - minOut)
      else if expectedOut = minOut then some 0
      else none
  | _, _ => none

/-- The final verdict assembly of `detectOpportunity` (from the
"Opportunity criteria" comment to the `return`):
`isProfitable = profitPotential && profitPotential > 0n`
(`0n` is falsy), `hasSignificantImpact = priceImpact !== undefined &&
priceImpact >= 0.005`, `isOpportunity = isProfitable && hasSignificantImpact`;
`profitPotential` is formatted with `formatUnits(·, tokenOutDecimals)`
(modelled by its rational denotation). -/
def detectVerdict (profitPotential : Option Int) (priceImpact : Option ℚ)
    (tokenOutDecimals : Nat) (poolAddress : String) (tokenInDecimals : Nat)
    (timeToSubmitSeconds : Option Nat) (deadlineTimestamp : Option Nat)
    (isExpired : Bool) : OpportunityResult :=
  let isProfitable : Bool :=
    match profitPotential with
    | some p => p ≠ 0 && p > 0
    | none => false
  let hasSignificantImpact : Bool :=
    match priceImpact with
    | some q => q ≥ 5 / 1000
    | none => false
  let isOpportunity := isProfitable && hasSignificantImpact
  { isOpportunity := isOpportunity
    profitPotential :=
      profitPotential.map fun p => (p : ℚ) / 10 ^ tokenOutDecimals
    priceImpact := priceImpact
    poolAddress := some poolAddress
    tokenInDecimals := some tokenInDecimals
    tokenOutDecimals := some tokenOutDecimals
    reason := some
      (if isOpportunity then "Profitable opportunity detected"
       else if hasSignificantImpact then "Price impact but no profit"
       else if isExpired then "Deadline expired"
       else "No significant opportunity")
    timeToSubmitSeconds := timeToSubmitSeconds
    deadlineTimestamp := deadlineTimestamp
    isExpired := isExpired }

/-- The fields of the `Opportunity` row the Kafka consumer persists that the
invariants range over (`prisma.opportunity.upsert` in
`processTransactionMessages`; the `update` and `create` branches assign the
same values). -/
structure OpportunityRow where
  status : String
  expectedProfit : Option ℚ
  priceImpact : Option ℚ
deriving DecidableEq, Repr

/-- The persistence decision of `processTransactionMessages`: rows are written
only when `opportunity.isOpportunity`; `status` is
`isExpired ? 'expired' : isOpportunity ? 'detected' : 'pending'`;
`expectedProfit: opportunity.profitPotential || null` keeps any present
`formatUnits` string (those are never empty, hence truthy);
`priceImpact: opportunity.priceImpact || null` nulls out a zero number. -/
def persistOpportunity (opportunity : OpportunityResult) :
    Option OpportunityRow :=
  if opportunity.isOpportunity then
    some
      { status :=
          if opportunity.isExpired then "expired"
          else if opportunity.isOpportunity then "detected"
          else "pending"
        expectedProfit := opportunity.profitPotential
        priceImpact :=
          match opportunity.priceImpact with
          | some q => if q = 0 then none else some q
          | none => none }
  else none

/-- The metadata fields of an `Opportunity` row that drive the cleanup task
(`metadata.deadlineTimestamp` is stored as a unix-seconds number by
`detectOpportunity`; `metadata.isExpired` as a boolean). -/
structure OppMeta where
  deadlineTimestamp : Option Int := none
  isExpired : Bool := false
deriving DecidableEq, Repr

/-- An `Opportunity` row as seen by `cleanupExpiredTxs`: its id, `status`
column and JSON `metadata` (nullable). -/
structure CleanupRow where
  id : Nat
  status : String
  metadata : Option OppMeta := none
deriving DecidableEq, Repr

/-- Whether the third pass of `cleanupExpiredTxs` marks a detected row for
deletion by deadline: the row was fetched with `status = 'detected'`, its
`metadata?.deadlineTimestamp` is truthy (present and non-zero) and
`deadlineTimestamp < now` — where `now = Date.now()`, i.e. **milliseconds**
since the epoch. -/
def deadlinePassDeletes (nowMs : Int) (row : CleanupRow) : Bool :=
  row.status == "detected" &&
    match row.metadata with
    | some m =>
        match m.deadlineTimestamp with
        | some d => d ≠ 0 && d < nowMs
        | none => false
    | none => false

/-- `cleanupExpiredTxs` from the cleanup task, as a function of the stored
rows and `now = Date.now()` (milliseconds): delete `status = 'expired'` rows,
then `status = 'pending'` rows, then detected rows whose
`metadata.isExpired = true` (the Prisma JSON filter does not match a null
`metadata`), then — from the remaining detected rows — those whose
`deadlineTimestamp` is truthy and `< now`. -/
def cleanupExpiredTxs (nowMs : Int) (db : List CleanupRow) : List CleanupRow :=
  let afterExpired := db.filter (fun r => r.status ≠ "expired")
  let afterPending := afterExpired.filter (fun r => r.status ≠ "pending")
  let afterFlag := afterPending.filter (fun r =>
    ¬(r.status = "detected" ∧ (r.metadata.map (·.isExpired)).getD false = true))
  let expiredByDeadlineIds :=
    (afterFlag.filter (deadlinePassDeletes nowMs)).map (·.id)
  afterFlag.filter (fun r => r.id ∉ expiredByDeadlineIds)

/-- A uniquely-keyed Prisma table as an association list (the unique index —
`(chainId, tokenAddress)`, `(chainId, poolAddress)` or `(chainId, router)` —
collapsed into one key type). -/
def DbTable (V : Type) := List (String × V)

/-- Whether the table holds a row for the key (`findUnique` succeeding). -/
def hasKey {V : Type} (t : DbTable V) (k : String) : Bool :=
  t.any (fun p => p.1 == k)

/-- Number of rows stored under the key. -/
def countKey {V : Type} (t : DbTable V) (k : String) : Nat :=
  t.countP (fun p => p.1 == k)

/-- Prisma `upsert` on a uniquely-keyed table (used by `addTokenToDb` for the
token cache and by the pool save in `getPools.ts`): update the row in place
when the key exists, insert otherwise.  Never fails. -/
def upsertRow {V : Type} (t : DbTable V) (k : String) (v : V) : DbTable V :=
  if hasKey t k then
    t.map (fun p => if p.1 == k then (k, v) else p)
  else
    (k, v) :: t

/-- Prisma `create` on a uniquely-keyed table (used by the factory-cache miss
path in `getFactoryAddress`): insert, or fail with a unique-constraint
violation when a row for the key already exists. -/
def createRow {V : Type} (t : DbTable V) (k : String) (v : V) :
    Except String (DbTable V) :=
  if hasKey t k then Except.error "Unique constraint failed"
  else Except.ok ((k, v) :: t)

theorem charDigitVal_digitChar {d : Nat} (h : d < 10) :
    charDigitVal (digitChar d) = d := by
  interval_cases d <;> decide

theorem isDigitChar_digitChar {d : Nat} (h : d < 10) :
    isDigitChar (digitChar d) = true := by
  interval_cases d <;> decide

theorem foldl_map_digitChar (l : List Nat) (h : ∀ d ∈ l, d < 10) :
    ∀ a : Nat, (l.map digitChar).foldl (fun a c => a * 10 + charDigitVal c) a
      = l.foldl (fun a d => a * 10 + d) a := by
  induction l with
  | nil => intro a; rfl
  | cons d L ih =>
      intro a
      simp only [List.map_cons, List.foldl_cons]
      rw [charDigitVal_digitChar (h d (List.mem_cons_self d L))]
      exact ih (fun x hx => h x (List.mem_cons_of_mem d hx)) _

theorem foldl_reverse_eq_ofDigits (l : List Nat) :
    l.reverse.foldl (fun a d => a * 10 + d) 0 = Nat.ofDigits 10 l := by
  induction l with
  | nil => rfl
  | cons d L ih =>
      rw [List.reverse_cons, List.foldl_append, ih, Nat.ofDigits_cons]
      simp
      ring

/-- `BigInt(n.toString()) = n`: decimal round-trip for arbitrary-precision
integers. -/
theorem jsBigIntOfString_natToString (n : Nat) :
    jsBigIntOfString (natToString n) = some n := by
  by_cases h0 : n = 0
  · subst h0; decide
  · have hdig : ∀ d ∈ Nat.digits 10 n, d < 10 := fun d hd =>
      Nat.digits_lt_base (by norm_num) hd
    unfold natToString jsBigIntOfString
    rw [if_neg h0]
    have hall : (String.mk ((Nat.digits 10 n).reverse.map digitChar)).data.all
        isDigitChar = true := by
      simp only [String.mk]
      rw [List.all_eq_true]
      intro c hc
      rcases List.mem_map.mp hc with ⟨d, hd, rfl⟩
      exact isDigitChar_digitChar (hdig d (List.mem_reverse.mp hd))
    rw [if_pos hall]
    congr 1
    simp only [String.mk]
    rw [foldl_map_digitChar _ (fun d hd => hdig d (List.mem_reverse.mp hd)) 0,
      foldl_reverse_eq_ofDigits, Nat.ofDigits_digits]

theorem char_toNat_ofNat_valid (n : Nat) (h : n.isValidChar) :
    (Char.ofNat n).toNat = n := by
  unfold Char.ofNat
  rw [dif_pos h]
  unfold Char.ofNatAux Char.toNat
  simp [UInt32.toNat, UInt32.ofNat', BitVec.toNat_ofNat]

theorem char_toLower_idem (c : Char) :
    Char.toLower (Char.toLower c) = Char.toLower c := by
  simp only [Char.toLower]
  by_cases h : c.toNat ≥ 65 ∧ c.toNat ≤ 90
  · rw [if_pos h]
    have hv : (c.toNat + 32).isValidChar := by
      unfold Nat.isValidChar
      left; omega
    rw [char_toNat_ofNat_valid _ hv, if_neg (by omega)]
  · rw [if_neg h, if_neg h]

theorem toLowerStr_idem (s : String) :
    toLowerStr (toLowerStr s) = toLowerStr s := by
  simp only [toLowerStr, List.map_map]
  congr 1
  exact List.map_congr_left fun c _ => char_toLower_idem c

theorem toLowerStr_empty : toLowerStr "" = "" := rfl

theorem toLowerStr_normalizeAddress (s : String) :
    toLowerStr (normalizeAddress s) = normalizeAddress s := by
  unfold normalizeAddress
  by_cases h : s = ""
  · rw [if_pos h, h, toLowerStr_empty]
  · rw [if_neg h, toLowerStr_idem]

/-- C9: serializing any `DecodedTransaction` into the bus envelope (`amountIn`
stringified to decimal, the rest carried through JSON as-is) and parsing it
back in the consumer (`amountIn` rehydrated with `BigInt`) yields the original
swap, equal in every field. -/
theorem decodedTx_bus_roundTrip (tx : DecodedTransaction) :
    deserializeDecodedTx (serializeDecodedTx tx) = some tx := by
  simp only [deserializeDecodedTx, serializeDecodedTx,
    jsBigIntOfString_natToString, Option.map_some']

/-- C3: for positive 256-bit inputs, the V2 price-impact engine's `amountOut`
is exactly the integer-arithmetic value
`(amountInWithFee * reserveOut) / (reserveIn * 1000 + amountInWithFee)` with
`amountInWithFee = ⌊amountIn * 997 / 1000⌋`, where `reserveIn`/`reserveOut`
are oriented so that `reserveIn` is the tokenIn-side reserve. -/
theorem getV2PriceImpact_amountOut_eq_spec
    (token0 tokenIn : String) (reserve0 reserve1 amountIn : Nat)
    (decimalsIn decimalsOut : Nat)
    (_h1 : 0 < amountIn) (_h2 : amountIn < 2 ^ 256)
    (_h3 : 0 < reserve0) (_h4 : reserve0 < 2 ^ 256)
    (_h5 : 0 < reserve1) (_h6 : reserve1 < 2 ^ 256) :
    (getV2PriceImpact token0 reserve0 reserve1 tokenIn amountIn
        decimalsIn decimalsOut).amountOut
      = v2SpecAmountOut amountIn
          (if toLowerStr tokenIn = toLowerStr token0 then reserve0 else reserve1)
          (if toLowerStr tokenIn = toLowerStr token0 then reserve1 else reserve0)
      ∧ (getV2PriceImpact token0 reserve0 reserve1 tokenIn amountIn
          decimalsIn decimalsOut).reserveIn
        = (if toLowerStr tokenIn = toLowerStr token0 then reserve0
           else reserve1) := by
  by_cases h : toLowerStr tokenIn = toLowerStr token0 <;>
    simp [getV2PriceImpact, v2SpecAmountOut, h]

/-- Witness for C3 at concrete inputs (tokenIn = token0 orientation). -/
theorem getV2PriceImpact_amountOut_eq_spec_witness :
    (0 : Nat) < 1000 ∧ (1000 : Nat) < 2 ^ 256 ∧ (0 : Nat) < 2 ∧ (2 : Nat) < 2 ^ 256
      ∧ (0 : Nat) < 3 ∧ (3 : Nat) < 2 ^ 256
      ∧ (getV2PriceImpact "0xA" 2 3 "0xa" 1000 18 6).amountOut
          = v2SpecAmountOut 1000 2 3 := by
  refine ⟨by decide, by decide, by decide, by decide, by decide, by decide, ?_⟩
  have h := getV2PriceImpact_amountOut_eq_spec "0xA" "0xa" 2 3 1000 18 6
    (by decide) (by decide) (by decide) (by decide) (by decide) (by decide)
  have horient : toLowerStr "0xa" = toLowerStr "0xA" := by decide
  rw [h.1, if_pos horient, if_pos horient]

/-- C2: evaluating the V2 price-impact engine on the spec's acceptance
scenario — `reserve0 = 1000·10^18`, `reserve1 = 2_000_000·10^6`,
`tokenIn = token0`, `amountIn = 10·10^18`, 18/6 decimals.  The code's
`amountOut` is `19_939_801` (≈ 19.94·10^6): roughly a thousandth of the
spec's expected `≈ 19_742·10^6`, far below `10_000·10^6`, and more than
1 % away from `19_742·10^6`; the computed price impact is ≈ 0.99 %. -/
theorem getV2PriceImpact_scenario_evaluation :
    (getV2PriceImpact "0xweth" (1000 * 10 ^ 18) (2000000 * 10 ^ 6) "0xWETH"
        (10 * 10 ^ 18) 18 6).amountOut = 19939801
      ∧ 19939801 < 10000 * 10 ^ 6
      ∧ 19939801 * 100 < 99 * (19742 * 10 ^ 6)
      ∧ (99 : ℚ) / 100
          ≤ (getV2PriceImpact "0xweth" (1000 * 10 ^ 18) (2000000 * 10 ^ 6)
              "0xWETH" (10 * 10 ^ 18) 18 6).priceImpactPercent
      ∧ (getV2PriceImpact "0xweth" (1000 * 10 ^ 18) (2000000 * 10 ^ 6)
          "0xWETH" (10 * 10 ^ 18) 18 6).priceImpactPercent ≤ 1 := by
  have hcond : (toLowerStr "0xWETH" = toLowerStr "0xweth") := by decide
  refine ⟨by decide, by decide, by decide, ?_, ?_⟩ <;>
    · simp only [getV2PriceImpact, hcond, if_true, eq_self_iff_true]
      rw [abs_of_pos (by norm_num)]
      norm_num

/-- C5 counterexample: a universal-router `V2_EXACT_IN` command decodes to a
swap with `routerFamily = v2` whose `fee` is `undefined`
(`args.fees?.toString()` where the V2 decode helper returns no `fees` key),
not the string `"0"`. -/
theorem urV2Action_fee_undefined :
    ((urActionOf (some "0xrouter") none
        (URCommand.v2ExactIn "0xuser" 5 1 ["0xa", "0xb"] true)).map
      fun dt => (dt.routerType, dt.fee)) = some (RouterType.v2, none) := by
  decide

/-- C5 amended: swaps decoded by the V2 router decoder always carry
`fee = "0"`, while universal-router swaps with `routerFamily = v2`
(`V2_EXACT_IN` / `V2_EXACT_OUT`) carry `fee = undefined` (the consumer later
coalesces it to `'0'` with `fee || '0'` when persisting). -/
theorem v2Fee_amended :
    (∀ (txTo : Option String) (txValue : Option Nat) (call : V2RouterCall),
        ((decodeV2RouterTx txTo txValue call).all
            fun dt => dt.fee == some "0") = true)
      ∧ (∀ (txTo : Option String) (dl : Option Nat) (cmds : List URCommand),
          ((decodeUniversalRouterFull txTo dl cmds).all
              fun dt => !(dt.routerType == RouterType.v2)
                || dt.fee == none) = true) := by
  constructor
  · intro txTo txValue call
    cases call <;> rfl
  · intro txTo dl cmds
    induction cmds with
    | nil => rfl
    | cons c cs ih =>
        cases c <;>
          simpa [decodeUniversalRouterFull, urActionOf] using ih

/-- C10: for universal-router `V2_EXACT_IN` / `V2_EXACT_OUT` commands with a
path of length at least 2, the emitted swap's `tokenOut` is the path element
at index 1 (which exists) — the second hop, not the final path element. -/
theorem urV2_tokenOut_is_second (txTo : Option String) (dl : Option Nat)
    (recipient : String) (amt amtB : Nat) (path : List String) (payer : Bool)
    (h : 2 ≤ path.length) :
    (((decodeUniversalRouterFull txTo dl
          [URCommand.v2ExactIn recipient amt amtB path payer,
           URCommand.v2ExactOut recipient amt amtB path payer]).all
        fun act => act.tokenOut == path.get? 1) = true)
      ∧ (path.get? 1).isSome = true := by
  constructor
  · simp [decodeUniversalRouterFull, urActionOf, urDecodeV2Path]
  · rw [List.get?_eq_getElem?, List.getElem?_eq_getElem (by omega)]
    rfl

/-- Witness for C10 on a concrete 3-hop path: `tokenOut` is `"0xb"`, which
differs from the final path element `"0xc"`. -/
theorem urV2_tokenOut_is_second_witness :
    2 ≤ (["0xa", "0xb", "0xc"] : List String).length
      ∧ ((((decodeUniversalRouterFull (some "0xr") none
            [URCommand.v2ExactIn "0xu" 5 1 ["0xa", "0xb", "0xc"] true,
             URCommand.v2ExactOut "0xu" 5 1 ["0xa", "0xb", "0xc"] true]).all
          fun act => act.tokenOut == ["0xa", "0xb", "0xc"].get? 1) = true)
          ∧ ((["0xa", "0xb", "0xc"] : List String).get? 1).isSome = true)
      ∧ (["0xa", "0xb", "0xc"] : List String).get? 1
          ≠ (["0xa", "0xb", "0xc"] : List String).getLast? :=
  ⟨by decide,
    urV2_tokenOut_is_second (some "0xr") none "0xu" 5 1 ["0xa", "0xb", "0xc"]
      true (by decide),
    by decide⟩

/-- C7 counterexample: the V2 router decoder emits addresses exactly as
ABI-decoded — a checksummed (mixed-case) path entry, recipient or `tx.to`
reaches the `DecodedSwap` un-lowercased. -/
theorem decodeV2Router_address_not_lowercased :
    ((decodeV2RouterTx (some "0xDd") none
        (V2RouterCall.swapExactTokensForTokens 7 1 ["0xAa", "0xBb"] "0xCc" 0
          false)).map
      fun dt => (dt.tokenIn, dt.tokenOut, dt.recipient, dt.router))
        = some (some "0xAa", some "0xBb", some "0xCc", "0xDd")
      ∧ toLowerStr "0xAa" ≠ "0xAa" ∧ toLowerStr "0xBb" ≠ "0xBb"
      ∧ toLowerStr "0xCc" ≠ "0xCc" ∧ toLowerStr "0xDd" ≠ "0xDd" := by
  decide

/-- C7 amended: only the V3 router decoder normalizes addresses — every
`tokenIn`, `tokenOut` and `recipient` it emits is lowercase-fixed; the V2 and
universal-router decoders emit addresses as received, and no decoder
lowercases the `router` field (the consumer lowercases when persisting). -/
theorem v3Decoder_lowercases_addresses :
    ∀ (txTo : Option String) (call : V3RouterCall),
      ((decodeV3RouterTx txTo call).all fun dt =>
          (dt.tokenIn.all fun x => toLowerStr x == x)
            && (dt.tokenOut.all fun x => toLowerStr x == x)
            && (dt.recipient.all fun x => toLowerStr x == x)) = true := by
  intro txTo call
  cases call with
  | exactInputSingle tin tout fee r dl aIn aOutMin =>
      simp [decodeV3RouterTx, Option.all, toLowerStr_normalizeAddress]
  | exactOutputSingle tin tout fee r dl aOut aInMax =>
      simp [decodeV3RouterTx, Option.all, toLowerStr_normalizeAddress]
  | exactInput raw lastFee r dl aIn aOutMin =>
      simp only [decodeV3RouterTx, decodeV3Path, Option.all, Function.comp,
        Bool.and_eq_true]
      refine ⟨⟨?_, ?_⟩, ?_⟩
      · cases h0 : raw[(0 : Nat)]? <;>
          simp [h0, toLowerStr_normalizeAddress]
      · cases h1 : raw[raw.length - 1]? <;>
          simp [h1, toLowerStr_normalizeAddress]
      · simp [toLowerStr_normalizeAddress]
  | exactOutput raw lastFee r dl aOut aInMax =>
      simp only [decodeV3RouterTx, decodeV3Path, Option.all, Function.comp,
        Bool.and_eq_true]
      refine ⟨⟨?_, ?_⟩, ?_⟩
      · cases h0 : raw[(0 : Nat)]? <;>
          simp [h0, toLowerStr_normalizeAddress]
      · cases h1 : raw[raw.length - 1]? <;>
          simp [h1, toLowerStr_normalizeAddress]
      · simp [toLowerStr_normalizeAddress]
  | other => rfl

/-- C8: a V2-family evaluation whose effective input amount (`amountIn`, or
`amountInMax` when `amountIn` is zero) is positive and exactly half the
tokenIn-side reserve is rejected at the liquidity-admissibility gate — the
result has `isOpportunity = false` whatever the downstream impact/profit
verdict would have been, with the gate's low-liquidity reason (the 50 % check
passes since `>` is strict, but `reserveIn = 2·amount < 10·amount` fails the
10×-reserve check). -/
theorem v2HalfReserve_rejected (amountIn amountInMax reserveIn : Nat)
    (poolAddress : String) (tokenInDecimals tokenOutDecimals : Nat)
    (h1 : 0 < effectiveAmountIn amountIn amountInMax)
    (h2 : reserveIn = 2 * effectiveAmountIn amountIn amountInMax) :
    ∀ verdict : Nat → OpportunityResult,
      detectV2Gated amountIn amountInMax reserveIn poolAddress
          tokenInDecimals tokenOutDecimals verdict
        = v2LiquidityRejectResult .lowLiquidity poolAddress
            tokenInDecimals tokenOutDecimals
      ∧ (detectV2Gated amountIn amountInMax reserveIn poolAddress
          tokenInDecimals tokenOutDecimals verdict).isOpportunity = false := by
  intro verdict
  set a := effectiveAmountIn amountIn amountInMax with ha
  have hmax : 2 * a * 50 / 100 = a := by
    rw [show 2 * a * 50 = a * 100 by ring]
    exact Nat.mul_div_cancel a (by norm_num)
  have hgate : v2LiquidityGate a reserveIn = some .lowLiquidity := by
    unfold v2LiquidityGate
    rw [h2, hmax, if_neg (lt_irrefl a), if_pos (by omega)]
  have hres : detectV2Gated amountIn amountInMax reserveIn poolAddress
      tokenInDecimals tokenOutDecimals verdict
      = v2LiquidityRejectResult .lowLiquidity poolAddress
          tokenInDecimals tokenOutDecimals := by
    unfold detectV2Gated
    rw [← ha, if_pos h1, hgate]
  exact ⟨hres, by rw [hres]; rfl⟩

/-- Witness for C8: `amountIn = 0` with `amountInMax = 5` gives effective
amount 5, exactly half of the reserve 10; the gate rejects with the
low-liquidity reason even for a verdict that would have claimed an
opportunity. -/
theorem v2HalfReserve_rejected_witness :
    0 < effectiveAmountIn 0 5 ∧ 10 = 2 * effectiveAmountIn 0 5
      ∧ (detectV2Gated 0 5 10 "0xpool" 18 6 (fun _ => { isOpportunity := true })
          = v2LiquidityRejectResult .lowLiquidity "0xpool" 18 6
        ∧ (detectV2Gated 0 5 10 "0xpool" 18 6
            (fun _ => { isOpportunity := true })).isOpportunity = false) :=
  ⟨by decide, by decide,
    v2HalfReserve_rejected 0 5 10 "0xpool" 18 6 (by decide) (by decide) _⟩

/-- C1: a row the bus consumer persists carries `status = "detected"` exactly
when the swap is not expired, and every such detected row stores a
`priceImpact ≥ 0.005` and an `expectedProfit` denoting a positive decimal —
because rows are persisted only when `detectOpportunity` returned
`isOpportunity = true`, which requires `profitPotential > 0` and
`priceImpact ≥ 0.005`. -/
theorem detectedRow_invariant
    (profitPotential : Option Int) (priceImpact : Option ℚ)
    (tokenOutDecimals : Nat) (poolAddress : String) (tokenInDecimals : Nat)
    (tts dts : Option Nat) (isExpired : Bool) (row : OpportunityRow)
    (h : persistOpportunity
        (detectVerdict profitPotential priceImpact tokenOutDecimals
          poolAddress tokenInDecimals tts dts isExpired) = some row) :
    (row.status = "detected" ↔ isExpired = false)
      ∧ (row.status = "detected" →
          (∃ q, row.priceImpact = some q ∧ (5 : ℚ) / 1000 ≤ q)
            ∧ (∃ v, row.expectedProfit = some v ∧ 0 < v)) := by
  cases hp : profitPotential with
  | none => simp [detectVerdict, persistOpportunity, hp] at h
  | some p =>
    cases hq : priceImpact with
    | none => simp [detectVerdict, persistOpportunity, hp, hq] at h
    | some q =>
      by_cases hp0 : 0 < p
      · by_cases hq5 : (5 : ℚ) / 1000 ≤ q
        · have hq0 : q ≠ 0 := by
            intro h0
            rw [h0] at hq5
            norm_num at hq5
          have hrow : row =
              { status := if isExpired then "expired" else "detected"
                expectedProfit := some ((p : ℚ) / 10 ^ tokenOutDecimals)
                priceImpact := some q } := by
            rw [hp, hq] at h
            simp [detectVerdict, persistOpportunity, hp0, hp0.ne', hq5,
              hq0] at h
            exact h.symm
          subst hrow
          cases isExpired with
          | false =>
              refine ⟨by simp, fun _ => ⟨⟨q, rfl, hq5⟩,
                ⟨(p : ℚ) / 10 ^ tokenOutDecimals, rfl, ?_⟩⟩⟩
              exact div_pos (by exact_mod_cast hp0) (by positivity)
          | true =>
              constructor
              · simp
              · intro hdet
                simp at hdet
        · rw [hp, hq] at h
          simp [detectVerdict, persistOpportunity, hq5] at h
      · rw [hp, hq] at h
        simp [detectVerdict, persistOpportunity, hp0] at h

/-- Witness for C1: a profit of 5 raw units (6 output decimals) with a 1 %
price impact and an unexpired deadline persists as a `"detected"` row with
positive stored profit and impact `≥ 0.005`. -/
theorem detectedRow_invariant_witness :
    persistOpportunity (detectVerdict (some 5) (some (1 / 100)) 6 "0xpool" 18
        none none false)
      = some { status := "detected"
               expectedProfit := some (((5 : Int) : ℚ) / 10 ^ 6)
               priceImpact := some (1 / 100) }
      ∧ (("detected" : String) = "detected" ↔ (false = false))
      ∧ ((("detected" : String) = "detected") →
          (∃ q, (some (1 / 100) : Option ℚ) = some q ∧ (5 : ℚ) / 1000 ≤ q)
            ∧ (∃ v, (some (((5 : Int) : ℚ) / 10 ^ 6) : Option ℚ) = some v
                ∧ 0 < v)) := by
  have hpersist : persistOpportunity (detectVerdict (some 5) (some (1 / 100))
      6 "0xpool" 18 none none false)
      = some { status := "detected"
               expectedProfit := some (((5 : Int) : ℚ) / 10 ^ 6)
               priceImpact := some (1 / 100) } := by
    simp [detectVerdict, persistOpportunity]
    norm_num
  have hmain := detectedRow_invariant (some 5) (some (1 / 100)) 6 "0xpool" 18
    none none false _ hpersist
  exact ⟨hpersist, hmain.1, hmain.2⟩

/-- C6: the third cleanup pass compares the stored unix-**seconds**
`metadata.deadlineTimestamp` against `now = Date.now()`, which is in
**milliseconds** — so a detected row whose deadline lies a full hour in the
future (in seconds, `nowSec + 3600 > nowSec`) still satisfies
`deadlineTimestamp < now` and is deleted, where the claim says it must be
retained.  (A deadline one second in the past is also deleted, as the claim
says.) -/
theorem cleanup_thirdPass_seconds_vs_millis :
    cleanupExpiredTxs (1700000000 * 1000)
        [{ id := 1, status := "detected",
           metadata := some { deadlineTimestamp := some (1700000000 + 3600),
                              isExpired := false } },
         { id := 2, status := "detected",
           metadata := some { deadlineTimestamp := some (1700000000 - 1),
                              isExpired := false } }] = []
      ∧ (1700000000 : Int) < 1700000000 + 3600 := by
  constructor
  · rfl
  · decide

/-- C4 counterexample: the factory cache's miss path uses `create`
(check-then-insert), so performing the miss-path write twice for the same key
— as happens when two writers race the same miss — fails the second time with
a unique-constraint error instead of succeeding both times. -/
theorem factoryCache_create_twice_fails :
    createRow ([] : DbTable Nat) "0xrouter" 42
        = Except.ok [("0xrouter", 42)]
      ∧ createRow ([("0xrouter", 42)] : DbTable Nat) "0xrouter" 42
          = Except.error "Unique constraint failed" := by
  constructor
  · rfl
  · rfl

/-- C4 amended: the token and pool caches write through Prisma `upsert`, so a
repeated write for the same key succeeds both times and leaves exactly one
row; the factory cache's miss path instead uses `create`, which fails with a
unique-constraint error whenever a row for the key already exists. -/
theorem cacheWrites_amended :
    (∀ (V : Type) (t : DbTable V) (k : String) (v₁ v₂ : V),
        hasKey t k = false →
          countKey (upsertRow (upsertRow t k v₁) k v₂) k = 1)
      ∧ (∀ (V : Type) (t : DbTable V) (k : String) (v : V),
          hasKey t k = true →
            createRow t k v = Except.error "Unique constraint failed") := by
  constructor
  · intro V t k v₁ v₂ hk
    have h0 : countKey t k = 0 := by
      rw [countKey, List.countP_eq_zero]
      intro a ha hpa
      have : hasKey t k = true := by
        rw [hasKey, List.any_eq_true]
        exact ⟨a, ha, hpa⟩
      rw [this] at hk
      cases hk
    have h1 : upsertRow t k v₁ = (k, v₁) :: t := by
      rw [upsertRow, hk]
      rfl
    rw [h1]
    have hk2 : hasKey ((k, v₁) :: t) k = true := by
      simp [hasKey]
    rw [upsertRow, hk2, if_pos rfl]
    rw [countKey, List.countP_map]
    have hcongr : ∀ a ∈ (k, v₁) :: t,
        (((fun p : String × V => p.1 == k)
            ∘ fun p : String × V => if p.1 == k then (k, v₂) else p) a = true)
          ↔ ((fun p : String × V => p.1 == k) a = true) := by
      intro a _
      by_cases hak : a.1 == k
      · simp [Function.comp, hak]
      · simp [Function.comp, hak]
    rw [List.countP_congr hcongr]
    have := h0
    rw [countKey] at this
    simp [List.countP_cons, this]
  · intro V t k v hk
    rw [createRow, hk]
    rfl

/-- Witness for C4 amended: a double upsert on a fresh token key leaves one
row, and a factory `create` against an occupied key errors. -/
theorem cacheWrites_amended_witness :
    hasKey ([] : DbTable Nat) "0xtoken" = false
      ∧ countKey (upsertRow (upsertRow ([] : DbTable Nat) "0xtoken" 1)
          "0xtoken" 2) "0xtoken" = 1
      ∧ hasKey ([("0xrouter", (7 : Nat))] : DbTable Nat) "0xrouter" = true
      ∧ createRow ([("0xrouter", (7 : Nat))] : DbTable Nat) "0xrouter" 8
          = Except.error "Unique constraint failed" :=
  ⟨rfl,
    cacheWrites_amended.1 Nat [] "0xtoken" 1 2 rfl,
    rfl,
    cacheWrites_amended.2 Nat [("0xrouter", 7)] "0xrouter" 8 rfl⟩

end MevBot
